import Mathlib

/-!
Verification of the tool-dispatch and schema-adapter layer of the
wakavoice-voyage-agent repository (`src/tools/__init__.py` and the individual
tool modules).  Python dicts/lists/strings are modelled by the JSON-like
`Value` type; each Python function of interest is translated into a Lean
function over `Value`, with outbound HTTP calls represented by explicit
oracle parameters or by dedicated "network phase" outcomes.
-/

namespace Waka

/-- JSON-like values: the shapes Python passes between the tools and the
dispatcher.  Python dicts are association lists in key-insertion order. -/
inductive Value where
  | str : String → Value
  | num : Int → Value
  | bool : Bool → Value
  | null : Value
  | arr : List Value → Value
  | obj : List (String × Value) → Value

/-- First-match association-list lookup: Python `d[k]` / `d.get(k)` on a dict
whose insertion order is the list order. -/
def lookupField (fields : List (String × Value)) (k : String) : Option Value :=
  match fields with
  | [] => none
  | (k', v) :: rest => if k' = k then some v else lookupField rest k

/-- Python `v[k]` on a dict value (`none` when `v` is not a dict or lacks `k`). -/
def vGet (v : Value) (k : String) : Option Value :=
  match v with
  | .obj fields => lookupField fields k
  | _ => none

/-- Python `v.get(k, d)` on a dict value. -/
def vGetD (v : Value) (k : String) (d : Value) : Value :=
  (vGet v k).getD d

/-- Python `'k' in d` for a dict. -/
def hasKey (fields : List (String × Value)) (k : String) : Bool :=
  fields.any (fun p => p.1 = k)

/-- Python truthiness of a value (`bool(v)`). -/
def pyTruthy (v : Value) : Bool :=
  match v with
  | .str s => s ≠ ""
  | .num n => n ≠ 0
  | .bool b => b
  | .null => false
  | .arr l => !l.isEmpty
  | .obj f => !f.isEmpty

/-- An argument mapping (`arguments` dict) as received by `execute_tool`. -/
def Args := List (String × Value)

/-- Python `arguments.get(k)`. -/
def argGet (args : Args) (k : String) : Option Value :=
  lookupField args k

/-- Python `arguments.get(k, d)`. -/
def argGetD (args : Args) (k : String) (d : Value) : Value :=
  (argGet args k).getD d

/-- Python `sep.join(l)`. -/
def pyJoin (sep : String) : List String → String
  | [] => ""
  | [x] => x
  | x :: y :: rest => x ++ sep ++ pyJoin sep (y :: rest)

/-- `needle` occurs as a contiguous substring of `hay`
(Python `needle in hay` on strings), as a proposition. -/
def strInfix (needle hay : String) : Prop :=
  needle.data <:+: hay.data

/-- `needle in hay` on strings, as a boolean. -/
def strContainsB (hay needle : String) : Bool :=
  decide (needle.data <:+: hay.data)

instance strInfixDecidable (x y : String) : Decidable (strInfix x y) :=
  List.decidableInfix x.data y.data

/-- The `{"status": "error", "message": msg}` envelope the tools return. -/
def errorEnvelope (msg : String) : Value :=
  .obj [("status", .str "error"), ("message", .str msg)]

/-- The `{"status": "success", "result": r}` wrapper `execute_tool` puts
around the document-tool handlers' return values. -/
def successWrap (r : Value) : Value :=
  .obj [("status", .str "success"), ("result", r)]

/-- `v` carries `"status": "success"`. -/
def isSuccessV (v : Value) : Bool :=
  match vGet v "status" with
  | some (.str "success") => true
  | _ => false

/-- `v` carries `"status": "error"`. -/
def isErrorV (v : Value) : Bool :=
  match vGet v "status" with
  | some (.str "error") => true
  | _ => false

/-- `v` is a `ToolCallResult` envelope: tagged either success or error. -/
def isResultV (v : Value) : Bool :=
  isSuccessV v || isErrorV v

/-! ## The dispatch table (`src/tools/__init__.py`, `execute_tool`) -/

/-- The keys of `tool_map` (src/tools/__init__.py lines 290-330), in
insertion order. -/
def knownToolNames : List String :=
  ["search_web", "send_email", "get_weather_forecast", "create_cv",
   "convert_currency", "search_flights", "search_hotels", "book_flight",
   "book_hotel", "search_exercises", "search_dog_breeds",
   "search_knowledge_base", "get_health_advice", "get_news", "search_places",
   "translate_text", "calculate", "end_conversation", "get_prayer_times",
   "find_pharmacy", "estimate_taxi_fare", "get_bus_schedule",
   "get_school_info", "get_government_service_info", "calculate_tax",
   "get_next_instruction", "schedule_callback", "send_confirmation_email",
   "send_sms_disconnection", "send_sms_payment_promise",
   "send_sms_extension_confirm", "generate_document", "analyze_document",
   "create_agent_config", "list_azure_voices"]

/-- The unknown-tool message of `execute_tool` (lines 336-339):
`f"Outil '{tool_name}' non trouvé. Outils disponibles: {', '.join(tool_map.keys())}"`. -/
def unknownToolMessage (toolName : String) : String :=
  "Outil '" ++ toolName ++ "' non trouvé. Outils disponibles: " ++
    pyJoin ", " knownToolNames

/-- The catch-all message of `execute_tool` (lines 358-362):
`f"Erreur lors de l'exécution de l'outil '{tool_name}': {str(e)}"`. -/
def execErrorMessage (toolName excText : String) : String :=
  "Erreur lors de l'exécution de l'outil '" ++ toolName ++ "': " ++ excText

/-- The implementations behind the dispatch table, abstracted: `impl n` is
the `execute` function of the module registered under name `n`; the two
document tools use the differently named handlers
`handle_document_generation_tool_call` and
`handle_document_analyzer_tool_call` (which live outside `src/tools/`).
`Except.error e` models the call raising an exception with text `e`. -/
structure ToolEnv where
  impl : String → Args → Except String Value
  generateDocument : Args → Except String Value
  analyzeDocument : Value → Value → Value → Value → Except String Value

/-- The body of the `try:` block of `execute_tool` (lines 341-357): the two
special-cased document tools are wrapped in a success envelope, every other
known tool's `execute(arguments)` result is passed through unchanged.  An
`Except.error` is an exception escaping the block. -/
def executeToolTry (env : ToolEnv) (toolName : String) (arguments : Args) :
    Except String Value :=
  if toolName = "generate_document" then
    (env.generateDocument arguments).map successWrap
  else if toolName = "analyze_document" then
    (env.analyzeDocument
      (argGetD arguments "file_content" (.str ""))
      (argGetD arguments "filename" (.str ""))
      (argGetD arguments "analysis_type" (.str "extract_text"))
      (argGetD arguments "specific_question" .null)).map successWrap
  else
    env.impl toolName arguments

/-- `execute_tool(tool_name, arguments)` (lines 235-362) at the exception
level: a result of `Except.error` would mean an exception propagating out of
`execute_tool` to its caller.  The unknown-name check precedes the `try:`;
the `except Exception` handler converts any exception from the body into the
catch-all error envelope. -/
def executeToolExc (env : ToolEnv) (toolName : String) (arguments : Args) :
    Except String Value :=
  if toolName ∈ knownToolNames then
    match executeToolTry env toolName arguments with
    | .ok v => .ok v
    | .error e => .ok (errorEnvelope (execErrorMessage toolName e))
  else
    .ok (errorEnvelope (unknownToolMessage toolName))

/-- A concrete environment whose uniform implementations always raise. -/
def envBoom : ToolEnv where
  impl := fun _ _ => .error "boom"
  generateDocument := fun _ => .ok .null
  analyzeDocument := fun _ _ _ _ => .ok .null

/-- A concrete environment whose document-generation handler reports a
failure inside its return value (without raising). -/
def envDocFail : ToolEnv where
  impl := fun _ _ => .ok .null
  generateDocument := fun _ => .ok (errorEnvelope "document invalide")
  analyzeDocument := fun _ _ _ _ => .error "boom"

/-! ## Schema adapter (`src/tools/__init__.py` lines 14-54 and 201-224) -/

/-- The whitespace class of Python `str.split()` with no argument
(restricted to the ASCII whitespace characters; the repository's
descriptions contain no other whitespace). -/
def isPySpace (c : Char) : Bool :=
  c = ' ' || c = '\t' || c = '\n' || c = '\r' || c = '\x0b' || c = '\x0c'

/-- Worker for `pySplit`: collects maximal runs of non-whitespace
characters, the accumulator holding the current word reversed. -/
def wordsAux : List Char → List Char → List (List Char)
  | [], acc => if acc = [] then [] else [acc.reverse]
  | c :: cs, acc =>
    if isPySpace c then
      if acc = [] then wordsAux cs [] else acc.reverse :: wordsAux cs []
    else wordsAux cs (c :: acc)

/-- Python `text.split()`: split on whitespace runs, dropping empty pieces. -/
def pySplit (s : String) : List String :=
  (wordsAux s.data []).map String.mk

/-- The characters before the last `' '` of `l`, or all of `l` when it holds
no space: Python `s.rsplit(' ', 1)[0]`. -/
def beforeLastSpace (l : List Char) : List Char :=
  match l.reverse.dropWhile (fun c => !(c = ' ')) with
  | [] => l
  | _ :: rest => rest.reverse

/-- `_truncate_description(text, max_length)` (lines 14-24): falsy (empty)
input is returned as is; whitespace runs are collapsed to single spaces;
a string within the limit is returned unchanged; otherwise the first
`max_length` characters are cut back to the last space (when one occurs)
and `"..."` is appended. -/
def truncateDescription (text : String) (maxLength : Nat) : String :=
  if text = "" then text
  else
    let cleaned := pyJoin " " (pySplit text)
    if cleaned.length ≤ maxLength then cleaned
    else String.mk (beforeLastSpace (cleaned.data.take maxLength)) ++ "..."

/-- `_truncate_description` lifted to a `Value`: every call site extracts
the argument with `.get(..., '')`, so it is a string in every well-formed
definition (a `None` is returned unchanged by the source's falsy check; any
other non-string would raise in the source and occurs nowhere). -/
def truncateValue (v : Value) (maxLength : Nat) : Value :=
  match v with
  | .str s => .str (truncateDescription s maxLength)
  | v => v

/-- One property entry built by `_compact_tool_definition` (lines 43-49):
only `type`, a truncated `description` and, when present, `default` are
kept. -/
def compactProperty (value : Value) : Value :=
  let entry := [("type", vGetD value "type" (.str "string")),
                ("description", truncateValue (vGetD value "description" (.str "")) 80)]
  match vGet value "default" with
  | some d => .obj (entry ++ [("default", d)])
  | none => .obj entry

/-- `_compact_tool_definition(tool)` (lines 27-54): a nested definition is
rebuilt with only `name`, truncated `description`, and rebuilt
`parameters`; anything without a `function` key is returned unchanged. -/
def compactToolDefinition (tool : Value) : Value :=
  match tool with
  | .obj fields =>
    if hasKey fields "function" then
      let func := (lookupField fields "function").getD .null
      let params := vGetD func "parameters" (.obj [])
      let props : List (String × Value) :=
        match vGet params "properties" with
        | some (.obj pf) => pf
        | _ => []
      let required := match vGet params "required" with
        | some r => r
        | none => .arr []
      .obj [("type", .str "function"),
            ("function", .obj [
               ("name", vGetD func "name" (.str "")),
               ("description",
                 truncateValue (vGetD func "description" (.str "")) 150),
               ("parameters", .obj [
                  ("type", .str "object"),
                  ("properties",
                    .obj (props.map (fun kv => (kv.1, compactProperty kv.2)))),
                  ("required", required)])])]
    else tool
  | v => v

/-- The per-definition flat-to-nested normalization of
`get_tools_definition` (lines 201-218): a definition that already has a
`function` key is kept unchanged; a flat one with top-level `name` and
`description` is wrapped into `{type: "function", function: {...}}`
(`parameters` defaulting to `{}`); anything else passes through. -/
def normalizeToolDef (tool : Value) : Value :=
  match tool with
  | .obj fields =>
    if hasKey fields "function" then .obj fields
    else if hasKey fields "name" && hasKey fields "description" then
      .obj [("type", .str "function"),
            ("function", .obj [
               ("name", (lookupField fields "name").getD .null),
               ("description", (lookupField fields "description").getD .null),
               ("parameters", (lookupField fields "parameters").getD (.obj []))])]
    else .obj fields
  | v => v

/-! ## Spec-side formulations and concrete inputs for the adapter claims -/

/-- The number of trailing non-space characters of `l`. -/
def trailingNonSpaceLen (l : List Char) : Nat :=
  (l.reverse.takeWhile (fun c => !(c = ' '))).length

/-- Modelled from the amended claim C3's words, independently of the
source's `rsplit` trick: collapse whitespace runs to single spaces; return
the string unchanged when within the limit; otherwise cut the prefix of
`maxLength` characters at the last space when one occurs in it (cut at the
limit itself when none does) and append the ellipsis marker. -/
def truncateDescriptionSpec (text : String) (maxLength : Nat) : String :=
  if text = "" then text
  else
    let cleaned := pyJoin " " (pySplit text)
    if cleaned.length ≤ maxLength then cleaned
    else
      let pc := cleaned.data.take maxLength
      if ' ' ∈ pc then
        String.mk (pc.take (pc.length - trailingNonSpaceLen pc - 1)) ++ "..."
      else String.mk pc ++ "..."

/-- The key list of a dict value. -/
def keysOf (v : Value) : List String :=
  match v with
  | .obj fields => fields.map Prod.fst
  | _ => []

/-- The entry of property `prop` inside a nested tool definition. -/
def propEntry (tool : Value) (prop : String) : Value :=
  vGetD (vGetD (vGetD (vGetD tool "function" .null) "parameters" .null)
    "properties" .null) prop .null

/-- The length of the `function.description` string of a nested tool
definition. -/
def descLenOf (tool : Value) : Nat :=
  match vGet (vGetD tool "function" .null) "description" with
  | some (.str s) => s.length
  | _ => 0

/-- A nested tool definition one of whose properties carries an `enum`
constraint (as the source's `travel_class` and several others do). -/
def enumToolFields : List (String × Value) :=
  [("type", .str "function"),
   ("function", .obj [
      ("name", .str "demo"),
      ("description", .str "small"),
      ("parameters", .obj [
         ("type", .str "object"),
         ("properties", .obj [
            ("choice", .obj [
               ("type", .str "string"),
               ("description", .str "pick one"),
               ("enum", .arr [.str "A", .str "B"])])]),
         ("required", .arr [.str "choice"])])])]

/-- The same definition as a value. -/
def enumToolInput : Value := .obj enumToolFields

/-- A 155-character single word: no whitespace boundary exists at or before
the limit of 150. -/
def noSpaceWordB : String := String.mk (List.replicate 155 'b')

/-- A 151-character single word. -/
def longWordA : String := String.mk (List.replicate 151 'a')

/-- A nested tool definition whose description is `longWordA`. -/
def longATool : Value :=
  .obj [("type", .str "function"),
        ("function", .obj [
           ("name", .str "t"),
           ("description", .str longWordA),
           ("parameters", .obj [])])]

/-! ## Amadeus-backed tools (`src/tools/tool_flight_search.py`,
`src/tools/tool_hotel_search.py`) -/

/-- The Amadeus credentials loaded from the environment
(`AMADEUS_API_KEY`, `AMADEUS_API_SECRET`; absent reads default to `""`). -/
structure AmadeusConfig where
  apiKey : String
  apiSecret : String

/-- Python `s.upper()` (the repository's codes are ASCII). -/
def pyUpper (s : String) : String := String.mk (s.data.map Char.toUpper)

/-- Python `s.strip()` (restricted to the ASCII whitespace class, the only
whitespace the repository's inputs carry). -/
def pyStrip (s : String) : String :=
  String.mk (((s.data.dropWhile isPySpace).reverse.dropWhile isPySpace).reverse)

/-- A non-empty all-digit character list. -/
def isDigitStr (l : List Char) : Bool :=
  !l.isEmpty && l.all (fun c => c.isDigit)

/-- Decimal value of a digit list. -/
def digitsToNat (l : List Char) : Nat :=
  l.foldl (fun n c => n * 10 + (c.toNat - 48)) 0

def isLeapYear (y : Nat) : Bool :=
  y % 4 = 0 && (y % 100 ≠ 0 || y % 400 = 0)

def daysInMonth (y m : Nat) : Nat :=
  if m = 2 then (if isLeapYear y then 29 else 28)
  else if m = 4 ∨ m = 6 ∨ m = 9 ∨ m = 11 then 30
  else 31

/-- Split a character list on every occurrence of `sep`, keeping empty
pieces (the behaviour of Python `s.split('-')` and `String.splitOn "-"`). -/
def splitOnChar (sep : Char) : List Char → List (List Char)
  | [] => [[]]
  | c :: cs =>
    if c = sep then [] :: splitOnChar sep cs
    else
      match splitOnChar sep cs with
      | w :: rest => (c :: w) :: rest
      | [] => [[c]]

/-- Success of `datetime.strptime(s, "%Y-%m-%d")`: CPython accepts 1-4
digit years and 1-2 digit months/days and checks calendar validity. -/
def isValidYmd (s : String) : Bool :=
  match splitOnChar '-' s.data with
  | [ys, ms, ds] =>
    isDigitStr ys && isDigitStr ms && isDigitStr ds &&
    ys.length ≤ 4 && ms.length ≤ 2 && ds.length ≤ 2 &&
    1 ≤ digitsToNat ms && digitsToNat ms ≤ 12 &&
    1 ≤ digitsToNat ds &&
    digitsToNat ds ≤ daysInMonth (digitsToNat ys) (digitsToNat ms)
  | _ => false

/-- Numeric key ordering parsed `YYYY-MM-DD` dates the way `datetime`
comparison does (on dates `isValidYmd` accepts). -/
def ymdKey (s : String) : Nat :=
  match splitOnChar '-' s.data with
  | [ys, ms, ds] => digitsToNat ys * 10000 + digitsToNat ms * 100 +
      digitsToNat ds
  | _ => 0

def amadeusMissingMsg : String :=
  "Clés API Amadeus manquantes. Configurez AMADEUS_API_KEY et AMADEUS_API_SECRET dans .env"

def flightIataMsg : String :=
  "Les codes IATA doivent faire 3 lettres (ex: OUA, CDG, ABJ)"

def hotelIataMsg : String :=
  "Le code IATA de ville doit faire 3 lettres (ex: OUA, PAR, ABJ)"

def dateFormatMsg : String :=
  "Format de date invalide. Utilisez YYYY-MM-DD (ex: 2025-12-15)"

def hotelDateOrderMsg : String :=
  "La date de départ doit être après la date d'arrivée"

/-- Outcome of the validation prefix of `search_flights`: either an error
envelope returned before any outbound HTTP request, or control reaching the
network phase (whose first step, `get_amadeus_token`, performs the OAuth
token POST — the first outbound call; lines 270-407 of the source). -/
inductive FlightSearchOutcome where
  | errorResult : Value → FlightSearchOutcome
  | networkPhase : String → String → String → String → Int → String → Int →
      FlightSearchOutcome

/-- `search_flights(...)` (tool_flight_search.py lines 223-268) up to the
first outbound HTTP call: credential check, IATA-length check on the
trimmed uppercased codes, clamping of `adults`/`max_results`, and date
validation, in source order. -/
def searchFlightsPre (cfg : AmadeusConfig)
    (origin destination departureDate returnDate : String) (adults : Int)
    (travelClass : String) (maxResults : Int) : FlightSearchOutcome :=
  if cfg.apiKey = "" ∨ cfg.apiSecret = "" then
    .errorResult (errorEnvelope amadeusMissingMsg)
  else
    let origin := pyStrip (pyUpper origin)
    let destination := pyStrip (pyUpper destination)
    if origin.length ≠ 3 ∨ destination.length ≠ 3 then
      .errorResult (errorEnvelope flightIataMsg)
    else
      let adults := max 1 (min adults 9)
      let maxResults := max 1 (min maxResults 10)
      if ¬isValidYmd departureDate = true ∨
          (returnDate ≠ "" ∧ ¬isValidYmd returnDate = true) then
        .errorResult (errorEnvelope dateFormatMsg)
      else
        .networkPhase origin destination departureDate returnDate adults
          travelClass maxResults

/-- Outcome of the validation prefix of `search_hotels` (the network phase
starts with the OAuth token POST of `get_amadeus_token`; lines 273-434). -/
inductive HotelSearchOutcome where
  | errorResult : Value → HotelSearchOutcome
  | networkPhase : String → String → String → Int → Int → Int →
      HotelSearchOutcome

/-- `search_hotels(...)` (tool_hotel_search.py lines 222-271) up to the
first outbound HTTP call: credential check, IATA-length check, clamping,
date parsing and the check-out-after-check-in check, in source order. -/
def searchHotelsPre (cfg : AmadeusConfig)
    (cityCode checkInDate checkOutDate : String)
    (adults rooms maxResults : Int) : HotelSearchOutcome :=
  if cfg.apiKey = "" ∨ cfg.apiSecret = "" then
    .errorResult (errorEnvelope amadeusMissingMsg)
  else
    let cityCode := pyStrip (pyUpper cityCode)
    if cityCode.length ≠ 3 then
      .errorResult (errorEnvelope hotelIataMsg)
    else
      let adults := max 1 (min adults 9)
      let rooms := max 1 (min rooms 9)
      let maxResults := max 1 (min maxResults 20)
      if ¬isValidYmd checkInDate = true ∨ ¬isValidYmd checkOutDate = true then
        .errorResult (errorEnvelope dateFormatMsg)
      else if ymdKey checkOutDate ≤ ymdKey checkInDate then
        .errorResult (errorEnvelope hotelDateOrderMsg)
      else
        .networkPhase cityCode checkInDate checkOutDate adults rooms
          maxResults

/-- `arguments.get(k, d)` read as a string.  (A present non-string value
would make the source fail later inside the tool's `try`; no claim
exercises that corner and every call site passes strings.) -/
def argStrD (args : Args) (k : String) (d : String) : String :=
  match argGet args k with
  | some (.str s) => s
  | _ => d

/-- `arguments.get(k, d)` read as an integer. -/
def argIntD (args : Args) (k : String) (d : Int) : Int :=
  match argGet args k with
  | some (.num n) => n
  | _ => d

/-- `execute(arguments)` of tool_flight_search.py (lines 410-420). -/
def searchFlightsExecute (cfg : AmadeusConfig) (args : Args) :
    FlightSearchOutcome :=
  searchFlightsPre cfg (argStrD args "origin" "")
    (argStrD args "destination" "") (argStrD args "departure_date" "")
    (argStrD args "return_date" "") (argIntD args "adults" 1)
    (argStrD args "travel_class" "ECONOMY") (argIntD args "max_results" 5)

/-- `execute(arguments)` of tool_hotel_search.py (lines 426-433). -/
def searchHotelsExecute (cfg : AmadeusConfig) (args : Args) :
    HotelSearchOutcome :=
  searchHotelsPre cfg (argStrD args "city_code" "")
    (argStrD args "check_in_date" "") (argStrD args "check_out_date" "")
    (argIntD args "adults" 1) (argIntD args "rooms" 1)
    (argIntD args "max_results" 10)

/-- A configured Amadeus credential pair. -/
def cfgDemo : AmadeusConfig := ⟨"demo-key", "demo-secret"⟩

/-! ## Health-advice tool (`src/tools/tool_health_advice.py`) -/

/-- Python `s.lower()` (ASCII mapping; the dataset's keywords are already
lowercase, accented characters included, and `Char.toLower` keeps
non-ASCII characters unchanged exactly as needed here). -/
def pyLower (s : String) : String := String.mk (s.data.map Char.toLower)

/-- One entry of the bundled local dataset `advice_database`
(tool_health_advice.py lines 166-227). -/
structure AdviceEntry where
  possibleCauses : List String
  remedies : List String
  whenToSeeDoctor : String
  naturalRemedies : List String

def ballonnementEntry : AdviceEntry where
  possibleCauses := ["Excès de gaz intestinaux", "Indigestion",
    "Constipation", "Syndrome de l'intestin irritable"]
  remedies := ["Boire une tisane de gingembre ou de menthe",
    "Masser doucement l'abdomen dans le sens des aiguilles d'une montre",
    "Éviter les aliments gazeux (choux, haricots, boissons gazeuses)",
    "Marcher 15-20 minutes après les repas",
    "Charbon actif (disponible en pharmacie)"]
  whenToSeeDoctor :=
    "Si douleur intense, fièvre, vomissements ou symptômes persistant plus de 3 jours"
  naturalRemedies := ["Tisane de fenouil", "Eau chaude citronnée",
    "Yaourt probiotique"]

def mauxDeTeteEntry : AdviceEntry where
  possibleCauses := ["Tension", "Déshydratation", "Fatigue", "Stress",
    "Migraine"]
  remedies := ["Repos dans un endroit calme et sombre",
    "Boire beaucoup d'eau (1-2 litres)",
    "Compresse froide sur le front",
    "Paracétamol 500mg (si nécessaire)",
    "Massage des tempes avec huile essentielle de menthe"]
  whenToSeeDoctor :=
    "Si très intense, soudain, accompagné de fièvre, confusion ou raideur de la nuque"
  naturalRemedies := ["Tisane de camomille", "Huile essentielle de lavande",
    "Repos"]

def fievreEntry : AdviceEntry where
  possibleCauses := ["Infection virale", "Infection bactérienne",
    "Inflammation"]
  remedies := ["Repos complet",
    "Boire beaucoup de liquides (eau, jus, bouillon)",
    "Paracétamol 1g toutes les 6h (adulte)",
    "Compresses tièdes pour faire baisser la température",
    "Vêtements légers"]
  whenToSeeDoctor :=
    "Si fièvre >39°C persistante, difficulté à respirer, confusion ou convulsions"
  naturalRemedies := ["Tisane de citronnelle", "Eau de coco", "Bain tiède"]

def touxEntry : AdviceEntry where
  possibleCauses := ["Rhume", "Grippe", "Allergie",
    "Irritation des voies respiratoires"]
  remedies := ["Miel + citron dans de l'eau chaude",
    "Inhalation de vapeur d'eau", "Repos vocal",
    "Hydratation abondante", "Éviter les irritants (fumée, poussière)"]
  whenToSeeDoctor :=
    "Si toux avec sang, fièvre élevée, essoufflement ou durée >2 semaines"
  naturalRemedies := ["Sirop de miel et gingembre", "Tisane de thym",
    "Inhalation d'eucalyptus"]

def diarrheeEntry : AdviceEntry where
  possibleCauses := ["Infection intestinale", "Intoxication alimentaire",
    "Stress"]
  remedies := ["Réhydratation orale (SRO) - eau + sel + sucre",
    "Riz blanc, banane, compote de pomme",
    "Éviter produits laitiers et aliments gras", "Repos",
    "Probiotiques naturels (yaourt après amélioration)"]
  whenToSeeDoctor :=
    "Si sang dans les selles, déshydratation sévère, fièvre élevée ou durée >3 jours"
  naturalRemedies := ["Eau de riz", "Tisane de menthe", "Charbon actif"]

/-- The dataset in Python dict insertion order: the fallback takes the
first keyword occurring as a substring of the lowercased symptom text. -/
def adviceDatabase : List (String × AdviceEntry) :=
  [("ballonnement", ballonnementEntry),
   ("maux de tête", mauxDeTeteEntry),
   ("fièvre", fievreEntry),
   ("toux", touxEntry),
   ("diarrhée", diarrheeEntry)]

/-- `get_generic_health_advice(symptoms)` (lines 158-277): keyword search
over the local dataset, defaulting to generic advice; always a success
result. -/
def getGenericHealthAdvice (symptoms : String) : Value :=
  let symptomsLower := pyLower symptoms
  match adviceDatabase.find? (fun kv => strContainsB symptomsLower kv.1) with
  | none =>
    .obj [("status", .str "success"),
          ("symptoms", .str symptoms),
          ("advice", .obj [
             ("general_advice", .arr [.str "Repos et hydratation",
                .str "Surveiller l'évolution des symptômes",
                .str "Consulter un médecin si les symptômes persistent ou s'aggravent",
                .str "Éviter l'automédication prolongée"]),
             ("when_to_see_doctor",
               .str "Si symptômes graves, persistants (>3 jours) ou inquiétants"),
             ("emergency_signs", .arr [.str "Douleur intense soudaine",
                .str "Difficulté à respirer", .str "Perte de conscience",
                .str "Fièvre très élevée (>40°C)",
                .str "Saignement important"])]),
          ("disclaimer",
            .str "⚠️ Ces conseils sont généraux. Consultez un professionnel de santé pour un diagnostic précis."),
          ("note",
            .str "Pour des conseils plus précis, configurez INFERMEDICA_APP_ID et INFERMEDICA_APP_KEY dans .env")]
  | some kv =>
    .obj [("status", .str "success"),
          ("symptoms", .str symptoms),
          ("possible_causes", .arr (kv.2.possibleCauses.map .str)),
          ("advice", .obj [
             ("remedies", .arr (kv.2.remedies.map .str)),
             ("natural_remedies", .arr (kv.2.naturalRemedies.map .str)),
             ("when_to_see_doctor", .str kv.2.whenToSeeDoctor)]),
          ("emergency_signs", .arr [.str "Douleur intense soudaine",
             .str "Difficulté à respirer", .str "Perte de conscience",
             .str "Saignement important"]),
          ("disclaimer",
            .str "⚠️ Ces conseils sont informatifs. Consultez un médecin si les symptômes persistent ou s'aggravent.")]

/-- `generate_advice_from_conditions` (lines 280-328); its `conditions`
parameter is never read by the source body. -/
def generateAdviceFromConditions (symptoms : String)
    (_conditions : List Value) : Value :=
  let symptomsLower := pyLower symptoms
  let remedies : List Value :=
    (if strContainsB symptomsLower "ballonnement" ||
        strContainsB symptomsLower "gaz" then
       [.str "Tisane de gingembre ou menthe",
        .str "Éviter les aliments gazeux",
        .str "Marche légère après les repas"] else []) ++
    (if strContainsB symptomsLower "douleur" then
       [.str "Repos dans une position confortable",
        .str "Compresse chaude ou froide selon le type de douleur"]
     else []) ++
    (if strContainsB symptomsLower "fièvre" then
       [.str "Paracétamol selon dosage approprié",
        .str "Hydratation abondante", .str "Repos complet"] else [])
  let remedies :=
    if remedies.isEmpty then
      [Value.str "Repos et hydratation",
       .str "Alimentation légère et équilibrée",
       .str "Éviter le stress et les efforts intenses"]
    else remedies
  .obj [("general_recommendations", .arr [.str "Repos et hydratation",
           .str "Surveiller l'évolution des symptômes",
           .str "Tenir un journal des symptômes"]),
        ("remedies", .arr remedies),
        ("when_to_see_doctor",
          .str "Si les symptômes persistent plus de 48-72 heures ou s'aggravent"),
        ("emergency_signs", .arr [.str "Douleur intense soudaine",
           .str "Difficulté à respirer", .str "Fièvre très élevée (>40°C)",
           .str "Perte de conscience"])]

/-- An HTTP response as the tool reads it: status code and parsed JSON. -/
structure HttpResp where
  status : Nat
  body : Value

/-- The Infermedica credentials (`INFERMEDICA_APP_ID`,
`INFERMEDICA_APP_KEY`; absent reads default to `""`). -/
structure InfermedicaConfig where
  appId : String
  appKey : String

/-- The primary provider as an oracle: responses of the `/parse` and
`/diagnosis` POSTs as functions of the request payload; `Except.error`
models the request (or its `.json()`) raising. -/
structure HealthNet where
  parseResp : Value → Except String HttpResp
  diagResp : Value → Except String HttpResp

/-- The elements of a JSON list value. -/
def asList (v : Value) : List Value :=
  match v with
  | .arr l => l
  | _ => []

/-- `mention.get("choice_id") == "present"`. -/
def mentionIsPresent (m : Value) : Bool :=
  match vGet m "choice_id" with
  | some (.str s) => s = "present"
  | _ => false

/-- The `/parse` request payload (lines 78-82). -/
def healthParsePayload (symptoms : String) (age : Int) (sex : String) :
    Value :=
  .obj [("text", .str symptoms), ("age", .obj [("value", .num age)]),
        ("sex", .str sex)]

/-- `round(probability * 100, 1)` of the source operates on floats; no
claim depends on this field, so it is modelled by integer scaling. -/
def probScaled (v : Value) : Value :=
  match v with
  | .num n => .num (n * 100)
  | _ => .num 0

/-- `get_health_advice(symptoms, age, sex)` (lines 47-155).  The only
raising operations inside the source's `try` are the two HTTP calls
(modelled by the oracle); the outer `except` routes every raise to the
local fallback. -/
def getHealthAdvice (cfg : InfermedicaConfig) (net : HealthNet)
    (symptoms : String) (age : Int) (sex : String) : Value :=
  if cfg.appId = "" ∨ cfg.appKey = "" then
    getGenericHealthAdvice symptoms
  else if symptoms = "" ∨ (pyStrip symptoms).length = 0 then
    errorEnvelope "Veuillez décrire vos symptômes"
  else
    match net.parseResp (healthParsePayload symptoms age sex) with
    | .error _ => getGenericHealthAdvice symptoms
    | .ok pr =>
      if pr.status ≠ 200 then getGenericHealthAdvice symptoms
      else
        let mentionsV := vGetD pr.body "mentions" (.arr [])
        if !pyTruthy mentionsV then getGenericHealthAdvice symptoms
        else
          let evidence := ((asList mentionsV).filter mentionIsPresent).map
            (fun m => Value.obj [("id", vGetD m "id" .null),
              ("choice_id", .str "present"), ("source", .str "initial")])
          match net.diagResp (.obj [("sex", .str sex),
              ("age", .obj [("value", .num age)]),
              ("evidence", .arr evidence)]) with
          | .error _ => getGenericHealthAdvice symptoms
          | .ok dr =>
            if dr.status ≠ 200 then getGenericHealthAdvice symptoms
            else
              let conditions := asList (vGetD dr.body "conditions" (.arr []))
              let possibleConditions := (conditions.take 3).map (fun c =>
                Value.obj [("name",
                    vGetD c "common_name" (.str "Condition inconnue")),
                  ("probability", probScaled (vGetD c "probability"
                    (.num 0)))])
              .obj [("status", .str "success"),
                    ("symptoms", .str symptoms),
                    ("patient_info", .obj [("age", .num age),
                       ("sex", .str sex)]),
                    ("possible_conditions", .arr possibleConditions),
                    ("advice", generateAdviceFromConditions symptoms
                      possibleConditions),
                    ("disclaimer",
                      .str "⚠️ Ces conseils sont informatifs. Consultez un médecin pour un diagnostic précis.")]

/-- The `possible_causes` list of a result. -/
def causesOf (v : Value) : List Value :=
  match vGet v "possible_causes" with
  | some (.arr l) => l
  | _ => []

/-- An unconfigured Infermedica credential pair. -/
def cfgNoInfermedica : InfermedicaConfig := ⟨"", ""⟩

/-- A placeholder provider (never consulted on the fallback paths the
claims exercise). -/
def dummyHealthNet : HealthNet :=
  ⟨fun _ => .ok ⟨200, .null⟩, fun _ => .ok ⟨200, .null⟩⟩

/-! ## Email tool (`src/tools/tool_email.py`, `execute` lines 368-388) -/

/-- Python's `a or b or ... or d` over `arguments.get(...)` results: the
first truthy value, else the final default (an absent key yields `None`,
which is falsy). -/
def pyOrChain : List (Option Value) → Value → Value
  | [], d => d
  | o :: rest, d =>
    match o with
    | some v => if pyTruthy v then v else pyOrChain rest d
    | none => pyOrChain rest d

/-- The four values the email tool's entry wrapper passes to
`send_email` (which performs the Azure I/O). -/
structure ResolvedEmailArgs where
  email : Value
  subject : Value
  message : Value
  url : Value

/-- The alias resolution of `execute(arguments)` (lines 373-384):
`email or to_email or recipient`, plain `.get("subject", "")`,
`message or body or content`, `url or link`, each chain defaulting to
`""`.  A total function: no lookup can raise. -/
def emailResolve (args : Args) : ResolvedEmailArgs where
  email := pyOrChain [argGet args "email", argGet args "to_email",
    argGet args "recipient"] (.str "")
  subject := argGetD args "subject" (.str "")
  message := pyOrChain [argGet args "message", argGet args "body",
    argGet args "content"] (.str "")
  url := pyOrChain [argGet args "url", argGet args "link"] (.str "")

/-- Modelled from the claim C9's words: the value of the first alias
*present* in the mapping (truthy or not), else the default. -/
def resolveFirstPresent (args : Args) (aliases : List String) (d : Value) :
    Value :=
  match aliases.findSome? (fun k => argGet args k) with
  | some v => v
  | none => d

/-- Spec-side formulation of the amended claim: the first *truthy* alias
value, else the default. -/
def resolveFirstTruthy (args : Args) (aliases : List String) (d : Value) :
    Value :=
  match (aliases.map (fun k => argGet args k)).find?
      (fun o => o.elim false pyTruthy) with
  | some (some v) => v
  | _ => d

/-- An argument mapping with `email` present but empty and `to_email`
present and non-empty. -/
def emailArgsCex : Args := [("email", .str ""), ("to_email", .str "a@b.c")]

/-! ## Substring helper lemmas -/

lemma strInfix_of_data (x hay : String) (s t : List Char)
    (h : s ++ x.data ++ t = hay.data) : strInfix x hay :=
  ⟨s, t, h⟩

lemma strInfix_pyJoin (sep x : String) :
    ∀ l : List String, x ∈ l → strInfix x (pyJoin sep l)
  | [], h => absurd h (List.not_mem_nil x)
  | [a], h => by
      rcases List.mem_singleton.mp h with rfl
      exact strInfix_of_data x (pyJoin sep [x]) [] [] (by simp [pyJoin])
  | a :: b :: rest, h => by
      rcases List.mem_cons.mp h with rfl | hmem
      · exact strInfix_of_data x (pyJoin sep (x :: b :: rest)) []
          (sep.data ++ (pyJoin sep (b :: rest)).data)
          (by simp [pyJoin, String.data_append, List.append_assoc])
      · have hrec := strInfix_pyJoin sep x (b :: rest) hmem
        obtain ⟨s, t, hst⟩ := hrec
        exact strInfix_of_data x (pyJoin sep (a :: b :: rest))
          (a.data ++ sep.data ++ s) t
          (by simp only [pyJoin, String.data_append, ← hst, List.append_assoc])

/-! ## Claim theorems about the dispatch table -/

/-- **C1**: for every known tool name and every argument mapping, as long as
the registered implementation returns a tagged `Success`/`Error` envelope
whenever it returns at all (the repository-wide `execute` contract),
`execute_tool` returns a `Success` or `Error` result and never lets an
exception escape (`executeToolExc` is always `Except.ok`); any exception
raised by the invoked implementation is caught and converted into an error
envelope whose message contains the tool name and the exception text. -/
theorem executeTool_known_total_and_catches (env : ToolEnv) (toolName : String)
    (args : Args) (hknown : toolName ∈ knownToolNames)
    (himpl : ∀ v, env.impl toolName args = .ok v → isResultV v = true) :
    (∃ v, executeToolExc env toolName args = .ok v ∧ isResultV v = true) ∧
    (∀ e, executeToolTry env toolName args = .error e →
      executeToolExc env toolName args =
        .ok (errorEnvelope (execErrorMessage toolName e)) ∧
      strInfix toolName (execErrorMessage toolName e) ∧
      strInfix e (execErrorMessage toolName e)) := by
  constructor
  · cases htry : executeToolTry env toolName args with
    | ok v =>
      refine ⟨v, by simp [executeToolExc, hknown, htry], ?_⟩
      by_cases hg : toolName = "generate_document"
      · subst hg
        simp only [executeToolTry, if_pos rfl] at htry
        cases hgen : env.generateDocument args with
        | ok r =>
          rw [hgen] at htry
          simp only [Except.map] at htry
          cases htry
          rfl
        | error e => rw [hgen] at htry; simp [Except.map] at htry
      · by_cases ha : toolName = "analyze_document"
        · subst ha
          simp only [executeToolTry,
            if_neg (show ¬("analyze_document" : String) = "generate_document"
              by decide),
            if_pos rfl] at htry
          cases hgen : env.analyzeDocument
              (argGetD args "file_content" (.str ""))
              (argGetD args "filename" (.str ""))
              (argGetD args "analysis_type" (.str "extract_text"))
              (argGetD args "specific_question" .null) with
          | ok r =>
            rw [hgen] at htry
            simp only [Except.map] at htry
            cases htry
            rfl
          | error e => rw [hgen] at htry; simp [Except.map] at htry
        · simp only [executeToolTry, if_neg hg, if_neg ha] at htry
          exact himpl v htry
    | error e =>
      exact ⟨errorEnvelope (execErrorMessage toolName e),
        by simp [executeToolExc, hknown, htry], rfl⟩
  · intro e he
    refine ⟨by simp [executeToolExc, hknown, he], ?_, ?_⟩
    · exact strInfix_of_data toolName (execErrorMessage toolName e)
        ("Erreur lors de l'exécution de l'outil '").data ("': " ++ e).data
        (by simp [execErrorMessage, String.data_append, List.append_assoc])
    · exact strInfix_of_data e (execErrorMessage toolName e)
        ("Erreur lors de l'exécution de l'outil '" ++ toolName ++ "': ").data []
        (by simp [execErrorMessage, String.data_append, List.append_assoc])

/-- Witness for C1 at the known name `search_web` with an implementation
that raises. -/
theorem executeTool_known_total_witness :
    (∃ v, executeToolExc envBoom "search_web" [] = .ok v ∧
      isResultV v = true) ∧
    (∀ e, executeToolTry envBoom "search_web" [] = .error e →
      executeToolExc envBoom "search_web" [] =
        .ok (errorEnvelope (execErrorMessage "search_web" e)) ∧
      strInfix "search_web" (execErrorMessage "search_web" e) ∧
      strInfix e (execErrorMessage "search_web" e)) :=
  executeTool_known_total_and_catches envBoom "search_web" [] (by decide)
    (fun _ h => nomatch h)

/-- **C2**: on a tool name outside the dispatch table, `execute_tool`
returns (never raises) an `Error` envelope whose message contains every
known tool name. -/
theorem executeTool_unknown_lists_names (env : ToolEnv) (toolName : String)
    (args : Args) (hunknown : toolName ∉ knownToolNames) :
    executeToolExc env toolName args =
      .ok (errorEnvelope (unknownToolMessage toolName)) ∧
    isErrorV (errorEnvelope (unknownToolMessage toolName)) = true ∧
    ∀ k ∈ knownToolNames, strInfix k (unknownToolMessage toolName) := by
  refine ⟨by simp [executeToolExc, hunknown], rfl, ?_⟩
  intro k hk
  obtain ⟨s, t, hst⟩ := strInfix_pyJoin ", " k knownToolNames hk
  exact strInfix_of_data k (unknownToolMessage toolName)
    (("Outil '" ++ toolName ++ "' non trouvé. Outils disponibles: ").data ++ s)
    t
    (by simp only [unknownToolMessage, String.data_append, ← hst,
          List.append_assoc])

/-- Witness for C2 at the unknown name `frobnicate`. -/
theorem executeTool_unknown_witness :
    executeToolExc envBoom "frobnicate" [] =
      .ok (errorEnvelope (unknownToolMessage "frobnicate")) ∧
    isErrorV (errorEnvelope (unknownToolMessage "frobnicate")) = true ∧
    ∀ k ∈ knownToolNames, strInfix k (unknownToolMessage "frobnicate") :=
  executeTool_unknown_lists_names envBoom "frobnicate" [] (by decide)

/-- **C10**: for the two special-cased document tools, whenever the handler
returns a value `r` without raising — including when `r` itself describes a
failure — `execute_tool` delivers `{"status": "success", "result": r}`; an
`Error` envelope arises for these tools only when the handler raises. -/
theorem executeTool_document_success_wrap (env : ToolEnv) (args : Args) :
    (∀ r, env.generateDocument args = .ok r →
      executeToolExc env "generate_document" args = .ok (successWrap r) ∧
      isSuccessV (successWrap r) = true ∧
      vGet (successWrap r) "result" = some r) ∧
    (∀ r, env.analyzeDocument (argGetD args "file_content" (.str ""))
        (argGetD args "filename" (.str ""))
        (argGetD args "analysis_type" (.str "extract_text"))
        (argGetD args "specific_question" .null) = .ok r →
      executeToolExc env "analyze_document" args = .ok (successWrap r) ∧
      isSuccessV (successWrap r) = true ∧
      vGet (successWrap r) "result" = some r) ∧
    (∀ e, env.generateDocument args = .error e →
      executeToolExc env "generate_document" args =
        .ok (errorEnvelope (execErrorMessage "generate_document" e))) ∧
    (∀ e, env.analyzeDocument (argGetD args "file_content" (.str ""))
        (argGetD args "filename" (.str ""))
        (argGetD args "analysis_type" (.str "extract_text"))
        (argGetD args "specific_question" .null) = .error e →
      executeToolExc env "analyze_document" args =
        .ok (errorEnvelope (execErrorMessage "analyze_document" e))) := by
  refine ⟨fun r h => ⟨?_, rfl, rfl⟩, fun r h => ⟨?_, rfl, rfl⟩,
    fun e h => ?_, fun e h => ?_⟩ <;>
    simp [executeToolExc, executeToolTry, h, Except.map, (by decide :
      ("generate_document" : String) ∈ knownToolNames), (by decide :
      ("analyze_document" : String) ∈ knownToolNames)]

/-- Witness for C10: the handler-reported failure is delivered to the caller
under a success status, and the raising analyzer produces the error
envelope. -/
theorem executeTool_document_wrap_witness :
    (executeToolExc envDocFail "generate_document" [] =
      .ok (successWrap (errorEnvelope "document invalide")) ∧
     isSuccessV (successWrap (errorEnvelope "document invalide")) = true) ∧
    executeToolExc envDocFail "analyze_document" [] =
      .ok (errorEnvelope (execErrorMessage "analyze_document" "boom")) :=
  have h := executeTool_document_success_wrap envDocFail []
  ⟨⟨(h.1 _ rfl).1, (h.1 _ rfl).2.1⟩, h.2.2.2 _ rfl⟩

/-! ## C5: idempotence of the flat-to-nested normalization -/

/-- **C5**: the flat-to-nested normalization applied per tool definition is
idempotent: applying it twice yields the same result as applying it once,
for nested, flat and pass-through inputs alike. -/
theorem normalizeToolDef_idempotent (tool : Value) :
    normalizeToolDef (normalizeToolDef tool) = normalizeToolDef tool := by
  cases tool with
  | obj fields =>
    by_cases h1 : hasKey fields "function" = true
    · simp [normalizeToolDef, h1]
    · by_cases h2 : (hasKey fields "name" && hasKey fields "description") = true
      · simp only [normalizeToolDef, h1, h2]
        simp [hasKey]
      · simp [normalizeToolDef, h1, h2]
  | str s => rfl
  | num n => rfl
  | bool b => rfl
  | null => rfl
  | arr l => rfl

/-! ## Lemmas about whitespace splitting and truncation -/

lemma beforeLastSpace_eq (l : List Char) :
    beforeLastSpace l =
      if ' ' ∈ l then l.take (l.length - trailingNonSpaceLen l - 1) else l := by
  by_cases hs : ' ' ∈ l
  · rw [if_pos hs]
    cases hd : l.reverse.dropWhile (fun c => !(c = ' ')) with
    | nil =>
      exact absurd (List.dropWhile_eq_nil_iff.mp hd ' '
        (List.mem_reverse.mpr hs)) (by simp)
    | cons c rest =>
      have hbls : beforeLastSpace l = rest.reverse := by
        unfold beforeLastSpace
        rw [hd]
      have hsplit : l.reverse.takeWhile (fun c => !(c = ' ')) ++ (c :: rest)
          = l.reverse := by
        have h0 := List.takeWhile_append_dropWhile (fun c => !(c = ' '))
          l.reverse
        rw [hd] at h0
        exact h0
      have hlen := congrArg List.length hsplit
      simp only [List.length_append, List.length_cons,
        List.length_reverse] at hlen
      have hl : rest.reverse ++
          ([c] ++ (l.reverse.takeWhile (fun c => !(c = ' '))).reverse) = l := by
        have h2 := congrArg List.reverse hsplit
        rw [List.reverse_append, List.reverse_cons, List.reverse_reverse] at h2
        rw [← List.append_assoc]
        exact h2
      have hamount : l.length - trailingNonSpaceLen l - 1 = rest.length := by
        unfold trailingNonSpaceLen
        omega
      rw [hbls, hamount]
      conv_rhs => rw [← hl]
      rw [show rest.length = rest.reverse.length from
        (List.length_reverse rest).symm]
      exact (List.take_left _ _).symm
  · rw [if_neg hs]
    have hnil : l.reverse.dropWhile (fun c => !(c = ' ')) = [] :=
      List.dropWhile_eq_nil_iff.mpr (fun x hx => by
        have hne : x ≠ ' ' := fun h => hs (h ▸ List.mem_reverse.mp hx)
        simp [hne])
    unfold beforeLastSpace
    rw [hnil]

lemma beforeLastSpace_length_le (l : List Char) :
    (beforeLastSpace l).length ≤ l.length := by
  rw [beforeLastSpace_eq]
  by_cases hs : ' ' ∈ l
  · rw [if_pos hs]
    simp [List.length_take]
  · rw [if_neg hs]

lemma wordsAux_ne_nil_of_acc :
    ∀ (l acc : List Char), acc ≠ [] → wordsAux l acc ≠ []
  | [], acc, ha => by simp [wordsAux, ha]
  | c :: cs, acc, ha => by
      unfold wordsAux
      by_cases hsp : isPySpace c = true
      · rw [if_pos hsp, if_neg ha]
        simp
      · rw [if_neg hsp]
        exact wordsAux_ne_nil_of_acc cs (c :: acc) (by simp)

lemma wordsAux_ne_nil_of_exists :
    ∀ (l acc : List Char), (∃ c ∈ l, isPySpace c = false) →
      wordsAux l acc ≠ []
  | [], _, h => by rcases h with ⟨c, hc, _⟩; exact absurd hc (List.not_mem_nil c)
  | c :: cs, acc, h => by
      unfold wordsAux
      by_cases hsp : isPySpace c = true
      · have htail : ∃ d ∈ cs, isPySpace d = false := by
          rcases h with ⟨d, hd, hds⟩
          rcases List.mem_cons.mp hd with rfl | hmem
          · exact absurd hsp (by simp [hds])
          · exact ⟨d, hmem, hds⟩
        rw [if_pos hsp]
        by_cases hae : acc = []
        · rw [if_pos hae]
          exact wordsAux_ne_nil_of_exists cs [] htail
        · rw [if_neg hae]
          simp
      · rw [if_neg hsp]
        exact wordsAux_ne_nil_of_acc cs (c :: acc) (by simp)

lemma wordsAux_all_ne_nil :
    ∀ (l acc : List Char), ∀ w ∈ wordsAux l acc, w ≠ []
  | [], acc, w, hw => by
      unfold wordsAux at hw
      by_cases hae : acc = []
      · rw [if_pos hae] at hw
        exact absurd hw (List.not_mem_nil w)
      · rw [if_neg hae] at hw
        rcases List.mem_singleton.mp hw with rfl
        exact fun hrev => hae (List.reverse_eq_nil_iff.mp hrev)
  | c :: cs, acc, w, hw => by
      unfold wordsAux at hw
      by_cases hsp : isPySpace c = true
      · rw [if_pos hsp] at hw
        by_cases hae : acc = []
        · rw [if_pos hae] at hw
          exact wordsAux_all_ne_nil cs [] w hw
        · rw [if_neg hae] at hw
          rcases List.mem_cons.mp hw with rfl | hmem
          · exact fun hrev => hae (List.reverse_eq_nil_iff.mp hrev)
          · exact wordsAux_all_ne_nil cs [] w hmem
      · rw [if_neg hsp] at hw
        exact wordsAux_all_ne_nil cs (c :: acc) w hw

lemma str_eq_empty_of_length {s : String} (h : s.length = 0) : s = "" := by
  apply String.ext
  have : s.data.length = 0 := h
  simpa using List.length_eq_zero.mp this

lemma pyJoin_cons_ne_empty (sep : String) (w : String) (ws : List String)
    (hw : w ≠ "") : pyJoin sep (w :: ws) ≠ "" := by
  cases ws with
  | nil => simpa [pyJoin] using hw
  | cons y rest =>
    intro h
    have hlen := congrArg String.length h
    simp only [pyJoin, String.length_append, String.length_empty] at hlen
    have : w.length = 0 := by omega
    exact hw (str_eq_empty_of_length this)

lemma cleaned_ne_empty (text : String)
    (h : text.data.any (fun c => !(isPySpace c)) = true) :
    pyJoin " " (pySplit text) ≠ "" := by
  rcases List.any_eq_true.mp h with ⟨c, hc, hcs⟩
  have hcs' : isPySpace c = false := by simpa using hcs
  have hne := wordsAux_ne_nil_of_exists text.data [] ⟨c, hc, hcs'⟩
  cases hw : wordsAux text.data [] with
  | nil => exact absurd hw hne
  | cons w ws =>
    have hwne : w ≠ [] :=
      wordsAux_all_ne_nil text.data [] w (hw ▸ List.mem_cons_self w ws)
    have hsplit : pySplit text = String.mk w :: ws.map String.mk := by
      simp [pySplit, hw]
    rw [hsplit]
    exact pyJoin_cons_ne_empty " " (String.mk w) _ (fun hh => hwne (by
      have := congrArg String.data hh
      simpa using this))

/-! ## C3 and C4: the compact schema and its truncation rule -/

set_option maxRecDepth 8000 in
/-- Counterexample to **C3** as stated: compaction does not preserve the
shape of the input with only the descriptions changed.  On `enumToolInput`
every description is within its limit (so under the claim the output would
equal the input), yet the property's `enum` list is dropped.  Moreover, on
a 155-character single word the cut is at the limit itself, which is not a
whitespace boundary (the prefix contains none). -/
theorem compact_schema_counterexample :
    vGet (propEntry enumToolInput "choice") "enum" =
      some (.arr [.str "A", .str "B"]) ∧
    vGet (propEntry (compactToolDefinition enumToolInput) "choice") "enum" =
      none ∧
    compactToolDefinition enumToolInput ≠ enumToolInput ∧
    truncateDescription noSpaceWordB 150 =
      String.mk (List.replicate 150 'b') ++ "..." := by
  refine ⟨rfl, rfl, fun h => ?_, rfl⟩

  have h1 : vGet (propEntry (compactToolDefinition enumToolInput) "choice")
      "enum" = some (.arr [.str "A", .str "B"]) := by rw [h]; rfl
  exact nomatch (h1 : (none : Option Value) = some (.arr [.str "A", .str "B"]))

/-- **C3** (amended): the compact variant keeps only `name`, truncated
`description` and rebuilt `parameters` for the function, and only `type`,
truncated `description` and (when present) `default` for each property —
other fields such as `enum` are dropped; each description is transformed
by collapsing whitespace runs to single spaces, returned unchanged when
within the limit (150 / 80), and otherwise cut at the last space at or
before the limit (at the limit itself when no space occurs in the prefix)
with an ellipsis marker appended — the source truncation agrees with this
spec-side formulation on every input. -/
theorem compact_schema_characterization :
    (∀ text maxLength, truncateDescription text maxLength =
      truncateDescriptionSpec text maxLength) ∧
    (∀ v, keysOf (compactProperty v) = ["type", "description"] ∨
      keysOf (compactProperty v) = ["type", "description", "default"]) ∧
    (∀ v, vGet (compactProperty v) "description" =
      some (truncateValue (vGetD v "description" (.str "")) 80)) ∧
    (∀ v, vGet (compactProperty v) "enum" = none) ∧
    (∀ fields, hasKey fields "function" = true →
      vGet (vGetD (compactToolDefinition (.obj fields)) "function" .null)
          "description" =
        some (truncateValue
          (vGetD ((lookupField fields "function").getD .null) "description"
            (.str "")) 150)) := by
  refine ⟨?_, ?_, ?_, ?_, ?_⟩
  · intro text maxLength
    unfold truncateDescription truncateDescriptionSpec
    by_cases h0 : text = ""
    · simp [h0]
    · simp only [if_neg h0]
      by_cases h1 : (pyJoin " " (pySplit text)).length ≤ maxLength
      · simp [h1]
      · simp only [if_neg h1]
        rw [beforeLastSpace_eq]
        by_cases hsp : ' ' ∈ (pyJoin " " (pySplit text)).data.take maxLength
        · rw [if_pos hsp, if_pos hsp]
        · rw [if_neg hsp, if_neg hsp]
  · intro v
    cases hd : vGet v "default" with
    | none => left; simp only [compactProperty, hd]; rfl
    | some d => right; simp only [compactProperty, hd]; rfl
  · intro v
    cases hd : vGet v "default" with
    | none => simp only [compactProperty, hd]; rfl
    | some d => simp only [compactProperty, hd]; rfl
  · intro v
    cases hd : vGet v "default" with
    | none => simp only [compactProperty, hd]; rfl
    | some d => simp only [compactProperty, hd]; rfl
  · intro fields h
    simp only [compactToolDefinition, h]
    rfl

/-- Witness for C3 (amended) at concrete inputs, the nested-definition
clause discharged on `enumToolFields`. -/
theorem compact_schema_characterization_witness :
    truncateDescription "un  mot" 10 = truncateDescriptionSpec "un  mot" 10 ∧
    vGet (compactProperty (.obj [("type", .str "string"),
      ("description", .str "d"), ("enum", .arr [])])) "enum" = none ∧
    vGet (vGetD (compactToolDefinition (.obj enumToolFields)) "function"
        .null) "description" =
      some (truncateValue
        (vGetD ((lookupField enumToolFields "function").getD .null)
          "description" (.str "")) 150) :=
  ⟨compact_schema_characterization.1 "un  mot" 10,
   compact_schema_characterization.2.2.2.1 _,
   compact_schema_characterization.2.2.2.2 enumToolFields rfl⟩

set_option maxRecDepth 8000 in
/-- Counterexample to **C4** as stated: the compact output's description can
exceed the configured limit by the three ellipsis characters (a 151-char
single word compacts to 153 > 150 characters), and a non-empty all-whitespace
input compacts to the empty string. -/
theorem truncate_limit_counterexample :
    descLenOf (compactToolDefinition longATool) = 153 ∧ 150 < 153 ∧
    truncateDescription " " 150 = "" ∧ (" " : String) ≠ "" :=
  ⟨rfl, by norm_num, rfl, by decide⟩

/-- **C4** (amended): every truncated description has length at most the
configured limit plus the three ellipsis characters (153 / 83 at the
compact limits 150 / 80), and is non-empty whenever the input contains at
least one non-whitespace character. -/
theorem truncate_description_bounds (text : String) (maxLength : Nat) :
    (truncateDescription text maxLength).length ≤ maxLength + 3 ∧
    (text.data.any (fun c => !(isPySpace c)) = true →
      truncateDescription text maxLength ≠ "") := by
  constructor
  · unfold truncateDescription
    by_cases h0 : text = ""
    · simp [h0]
    · simp only [if_neg h0]
      by_cases h1 : (pyJoin " " (pySplit text)).length ≤ maxLength
      · simp only [if_pos h1]
        omega
      · simp only [if_neg h1]
        rw [String.length_append]
        have hble := beforeLastSpace_length_le
          ((pyJoin " " (pySplit text)).data.take maxLength)
        have htake : ((pyJoin " " (pySplit text)).data.take maxLength).length
            ≤ maxLength := by simp [List.length_take]
        have hmk : (String.mk (beforeLastSpace
            ((pyJoin " " (pySplit text)).data.take maxLength))).length =
            (beforeLastSpace
              ((pyJoin " " (pySplit text)).data.take maxLength)).length := rfl
        have hdots : ("..." : String).length = 3 := rfl
        omega
  · intro hany
    unfold truncateDescription
    have h0 : text ≠ "" := by
      intro h
      rw [h] at hany
      simp at hany
    simp only [if_neg h0]
    by_cases h1 : (pyJoin " " (pySplit text)).length ≤ maxLength
    · simp only [if_pos h1]
      exact cleaned_ne_empty text hany
    · simp only [if_neg h1]
      intro h
      have hlen := congrArg String.length h
      rw [String.length_append] at hlen
      have hdots : ("..." : String).length = 3 := rfl
      simp only [hdots, String.length_empty] at hlen
      omega

/-- Witness for C4 (amended) at a concrete input. -/
theorem truncate_description_bounds_witness :
    (truncateDescription "agence de voyage" 10).length ≤ 10 + 3 ∧
    truncateDescription "agence de voyage" 10 ≠ "" :=
  ⟨(truncate_description_bounds "agence de voyage" 10).1,
   (truncate_description_bounds "agence de voyage" 10).2 (by decide)⟩

/-! ## C6 and C7: validation and configuration checks of the Amadeus tools -/

/-- Counterexample to **C6** as stated: `"123"` is not three *alphabetic*
characters, yet with configured credentials the flight search passes the
length-only check and proceeds to the network phase (the OAuth token
request) instead of returning a validation error; the hotel search behaves
the same on city code `"123"`. -/
theorem iata_alpha_counterexample :
    searchFlightsPre cfgDemo "123" "CDG" "2025-12-15" "" 1 "ECONOMY" 5 =
      .networkPhase "123" "CDG" "2025-12-15" "" 1 "ECONOMY" 5 ∧
    searchHotelsPre cfgDemo "123" "2025-12-15" "2025-12-20" 1 1 10 =
      .networkPhase "123" "2025-12-15" "2025-12-20" 1 1 10 :=
  ⟨rfl, rfl⟩

/-- **C6** (amended): when the Amadeus credentials are configured, an
origin, destination or city code whose trimmed uppercased form does not
have exactly 3 characters (alphabetic or not) makes the flight and hotel
search return an error envelope mentioning the 3-letter IATA requirement,
before any outbound network call (the `networkPhase` outcome marks the
first HTTP request). -/
theorem iata_length_validation (cfg : AmadeusConfig)
    (origin destination departureDate returnDate : String) (adults : Int)
    (travelClass : String) (maxResults : Int)
    (cityCode checkInDate checkOutDate : String) (adl rms mxr : Int)
    (hkey : ¬(cfg.apiKey = "" ∨ cfg.apiSecret = ""))
    (hlenF : (pyStrip (pyUpper origin)).length ≠ 3 ∨
      (pyStrip (pyUpper destination)).length ≠ 3)
    (hlenH : (pyStrip (pyUpper cityCode)).length ≠ 3) :
    searchFlightsPre cfg origin destination departureDate returnDate adults
        travelClass maxResults = .errorResult (errorEnvelope flightIataMsg) ∧
    searchHotelsPre cfg cityCode checkInDate checkOutDate adl rms mxr =
      .errorResult (errorEnvelope hotelIataMsg) ∧
    strInfix "3 lettres" flightIataMsg ∧
    strInfix "3 lettres" hotelIataMsg := by
  refine ⟨?_, ?_, by decide, by decide⟩
  · simp only [searchFlightsPre]
    rw [if_neg hkey, if_pos hlenF]
  · simp only [searchHotelsPre]
    rw [if_neg hkey, if_pos hlenH]

/-- Witness for C6 (amended) at the spec's own scenario: a lowercase
two-letter origin `"ou"`. -/
theorem iata_length_validation_witness :
    searchFlightsPre cfgDemo "ou" "CDG" "2025-12-15" "" 1 "ECONOMY" 5 =
      .errorResult (errorEnvelope flightIataMsg) ∧
    searchHotelsPre cfgDemo "xy" "2025-12-15" "2025-12-20" 1 1 10 =
      .errorResult (errorEnvelope hotelIataMsg) ∧
    strInfix "3 lettres" flightIataMsg ∧
    strInfix "3 lettres" hotelIataMsg :=
  iata_length_validation cfgDemo "ou" "CDG" "2025-12-15" "" 1 "ECONOMY" 5
    "xy" "2025-12-15" "2025-12-20" 1 1 10 (by decide) (by decide) (by decide)

/-- **C7**: with `AMADEUS_API_KEY` or `AMADEUS_API_SECRET` absent (empty),
both Amadeus-backed tools return the configuration error envelope for every
argument mapping, before any outbound HTTP call. -/
theorem amadeus_missing_key_config_error (cfg : AmadeusConfig) (args : Args)
    (hmiss : cfg.apiKey = "" ∨ cfg.apiSecret = "") :
    searchFlightsExecute cfg args =
      .errorResult (errorEnvelope amadeusMissingMsg) ∧
    searchHotelsExecute cfg args =
      .errorResult (errorEnvelope amadeusMissingMsg) ∧
    isErrorV (errorEnvelope amadeusMissingMsg) = true ∧
    strInfix "AMADEUS_API_KEY" amadeusMissingMsg := by
  refine ⟨?_, ?_, rfl, by decide⟩
  · simp only [searchFlightsExecute, searchFlightsPre]
    rw [if_pos hmiss]
  · simp only [searchHotelsExecute, searchHotelsPre]
    rw [if_pos hmiss]

/-- Witness for C7 with an empty API key. -/
theorem amadeus_missing_key_witness :
    searchFlightsExecute ⟨"", "secret"⟩ [("origin", .str "OUA")] =
      .errorResult (errorEnvelope amadeusMissingMsg) ∧
    searchHotelsExecute ⟨"", "secret"⟩ [("origin", .str "OUA")] =
      .errorResult (errorEnvelope amadeusMissingMsg) ∧
    isErrorV (errorEnvelope amadeusMissingMsg) = true ∧
    strInfix "AMADEUS_API_KEY" amadeusMissingMsg :=
  amadeus_missing_key_config_error ⟨"", "secret"⟩ [("origin", .str "OUA")]
    (Or.inl rfl)

/-! ## C8: health-advice fallback -/

lemma mem_dropWhile_of_mem {p : Char → Bool} :
    ∀ {l : List Char} {c : Char}, c ∈ l → p c = false → c ∈ l.dropWhile p
  | a :: l, c, hc, hpc => by
      by_cases hpa : p a = true
      · rw [List.dropWhile_cons_of_pos hpa]
        rcases List.mem_cons.mp hc with rfl | hmem
        · exact absurd hpa (by simp [hpc])
        · exact mem_dropWhile_of_mem hmem hpc
      · rw [List.dropWhile_cons_of_neg hpa]
        exact hc

lemma dropWhile_ne_nil_of_exists {p : Char → Bool} {l : List Char}
    (h : ∃ c ∈ l, p c = false) : l.dropWhile p ≠ [] := by
  intro hnil
  rcases h with ⟨c, hc, hpc⟩
  have := List.dropWhile_eq_nil_iff.mp hnil c hc
  simp [hpc] at this

lemma pyStrip_length_ne_zero (s : String)
    (h : ∃ c ∈ s.data, isPySpace c = false) : (pyStrip s).length ≠ 0 := by
  rcases h with ⟨c, hc, hcs⟩
  have h1 : c ∈ s.data.dropWhile isPySpace := mem_dropWhile_of_mem hc hcs
  have h2 : (s.data.dropWhile isPySpace).reverse.dropWhile isPySpace ≠ [] :=
    dropWhile_ne_nil_of_exists ⟨c, List.mem_reverse.mpr h1, hcs⟩
  intro hlen
  apply h2
  have hdata : (pyStrip s).data =
      ((s.data.dropWhile isPySpace).reverse.dropWhile isPySpace).reverse :=
    rfl
  have : (pyStrip s).data = [] := List.length_eq_zero.mp hlen
  rw [hdata] at this
  simpa using this

lemma mem_data_of_strContains (hay needle : String) (c : Char)
    (hc : c ∈ needle.data) (h : strContainsB hay needle = true) :
    c ∈ hay.data := by
  have hinf : needle.data <:+: hay.data := by
    have := of_decide_eq_true h
    exact this
  exact hinf.subset hc

lemma exists_f_of_fever (symptoms : String)
    (hfever : strContainsB (pyLower symptoms) "fièvre" = true) :
    ∃ c ∈ symptoms.data, isPySpace c = false := by
  have hf : ('f' : Char) ∈ (pyLower symptoms).data :=
    mem_data_of_strContains _ _ 'f' (by decide) hfever
  have : ∃ c ∈ symptoms.data, Char.toLower c = 'f' := by
    simpa [pyLower] using hf
  rcases this with ⟨c, hc, hlow⟩
  refine ⟨c, hc, ?_⟩
  by_contra hsp
  have hsp' : isPySpace c = true := by
    cases hx : isPySpace c
    · exact absurd hx hsp
    · rfl
  have : c = ' ' ∨ c = '\t' ∨ c = '\n' ∨ c = '\r' ∨ c = '\x0b' ∨
      c = '\x0c' := by
    simpa [isPySpace, or_assoc] using hsp'
  rcases this with rfl | rfl | rfl | rfl | rfl | rfl <;> exact absurd hlow
    (by decide)

/-- Counterexample to **C8** as stated: with the primary provider
unconfigured and the symptom text `"maux de tête et fièvre"` (which does
contain `"fièvre"`), the fallback matches the earlier dataset keyword
`"maux de tête"` first, so the success result's `possible_causes` does not
contain `"Infection virale"`. -/
theorem health_fever_counterexample :
    vGet (getHealthAdvice cfgNoInfermedica dummyHealthNet
      "maux de tête et fièvre" 30 "male") "status" = some (.str "success") ∧
    strContainsB (pyLower "maux de tête et fièvre") "fièvre" = true ∧
    causesOf (getHealthAdvice cfgNoInfermedica dummyHealthNet
      "maux de tête et fièvre" 30 "male") =
      [.str "Tension", .str "Déshydratation", .str "Fatigue", .str "Stress",
       .str "Migraine"] ∧
    ¬ Value.str "Infection virale" ∈ causesOf (getHealthAdvice
      cfgNoInfermedica dummyHealthNet "maux de tête et fièvre" 30 "male") := by
  refine ⟨rfl, rfl, rfl, ?_⟩
  intro hmem
  rw [show causesOf (getHealthAdvice cfgNoInfermedica dummyHealthNet
      "maux de tête et fièvre" 30 "male") =
      [.str "Tension", .str "Déshydratation", .str "Fatigue", .str "Stress",
       .str "Migraine"] from rfl] at hmem
  simp only [List.mem_cons, List.not_mem_nil, or_false] at hmem
  rcases hmem with h | h | h | h | h <;>
    exact absurd (Value.str.inj h) (by decide)

/-- **C8** (amended): when the primary provider is unconfigured or
unreachable (the `/parse` request raises or returns non-200) and the
lowercased symptom text contains `"fièvre"` but neither of the dataset
keywords listed before it (`"ballonnement"`, `"maux de tête"`), the tool
falls back to the local dataset and returns a `Success` whose
`possible_causes` contains `"Infection virale"`; the successful fallback
is never surfaced as an error. -/
theorem health_fallback_fever (cfg : InfermedicaConfig) (net : HealthNet)
    (symptoms : String) (age : Int) (sex : String)
    (hfall : cfg.appId = "" ∨ cfg.appKey = "" ∨
      (∃ e, net.parseResp (healthParsePayload symptoms age sex) =
        .error e) ∨
      (∃ r, net.parseResp (healthParsePayload symptoms age sex) = .ok r ∧
        r.status ≠ 200))
    (hfever : strContainsB (pyLower symptoms) "fièvre" = true)
    (h1 : strContainsB (pyLower symptoms) "ballonnement" = false)
    (h2 : strContainsB (pyLower symptoms) "maux de tête" = false) :
    getHealthAdvice cfg net symptoms age sex =
      getGenericHealthAdvice symptoms ∧
    vGet (getGenericHealthAdvice symptoms) "status" =
      some (.str "success") ∧
    Value.str "Infection virale" ∈ causesOf (getGenericHealthAdvice
      symptoms) := by
  have hfind : adviceDatabase.find?
      (fun kv => strContainsB (pyLower symptoms) kv.1) =
      some ("fièvre", fievreEntry) := by
    simp [adviceDatabase, List.find?, h1, h2, hfever]
  have hgen : getGenericHealthAdvice symptoms =
      .obj [("status", .str "success"),
            ("symptoms", .str symptoms),
            ("possible_causes", .arr (fievreEntry.possibleCauses.map .str)),
            ("advice", .obj [
               ("remedies", .arr (fievreEntry.remedies.map .str)),
               ("natural_remedies",
                 .arr (fievreEntry.naturalRemedies.map .str)),
               ("when_to_see_doctor", .str fievreEntry.whenToSeeDoctor)]),
            ("emergency_signs", .arr [.str "Douleur intense soudaine",
               .str "Difficulté à respirer", .str "Perte de conscience",
               .str "Saignement important"]),
            ("disclaimer",
              .str "⚠️ Ces conseils sont informatifs. Consultez un médecin si les symptômes persistent ou s'aggravent.")] := by
    simp only [getGenericHealthAdvice, hfind]
  refine ⟨?_, by rw [hgen]; rfl, by rw [hgen]; exact List.mem_cons_self _ _⟩
  by_cases hcfg : cfg.appId = "" ∨ cfg.appKey = ""
  · simp only [getHealthAdvice]
    rw [if_pos hcfg]
  · have hsym : ¬(symptoms = "" ∨ (pyStrip symptoms).length = 0) := by
      rintro (h | h)
      · rcases exists_f_of_fever symptoms hfever with ⟨c, hc, _⟩
        rw [h] at hc
        exact absurd hc (List.not_mem_nil c)
      · exact pyStrip_length_ne_zero symptoms
          (exists_f_of_fever symptoms hfever) h
    rcases hfall with h | h | ⟨e, he⟩ | ⟨r, hr, hst⟩
    · exact absurd (Or.inl h) hcfg
    · exact absurd (Or.inr h) hcfg
    · simp only [getHealthAdvice]
      rw [if_neg hcfg, if_neg hsym, he]
    · simp only [getHealthAdvice]
      rw [if_neg hcfg, if_neg hsym, hr]
      exact if_pos hst

/-- Witness for C8 (amended) at symptom text `"fièvre"` with the provider
unconfigured. -/
theorem health_fallback_fever_witness :
    getHealthAdvice cfgNoInfermedica dummyHealthNet "fièvre" 30 "male" =
      getGenericHealthAdvice "fièvre" ∧
    vGet (getGenericHealthAdvice "fièvre") "status" =
      some (.str "success") ∧
    Value.str "Infection virale" ∈ causesOf (getGenericHealthAdvice
      "fièvre") :=
  health_fallback_fever cfgNoInfermedica dummyHealthNet "fièvre" 30 "male"
    (Or.inl rfl) (by decide) (by decide) (by decide)

/-! ## C9: email argument-alias resolution -/

lemma pyOrChain_eq_firstTruthy (args : Args) :
    ∀ (ks : List String) (d : Value),
      pyOrChain (ks.map (fun k => argGet args k)) d =
        resolveFirstTruthy args ks d
  | [], _ => rfl
  | k :: rest, d => by
      have ih := pyOrChain_eq_firstTruthy args rest d
      cases hk : argGet args k with
      | none =>
        have e1 : pyOrChain ((k :: rest).map (fun k => argGet args k)) d =
            pyOrChain (rest.map (fun k => argGet args k)) d := by
          simp only [List.map_cons, hk, pyOrChain]
        have e2 : resolveFirstTruthy args (k :: rest) d =
            resolveFirstTruthy args rest d := by
          simp only [resolveFirstTruthy, List.map_cons, List.find?, hk,
            Option.elim]
        rw [e1, e2]
        exact ih
      | some v =>
        by_cases ht : pyTruthy v = true
        · have e1 : pyOrChain ((k :: rest).map (fun k => argGet args k)) d =
              v := by
            simp only [List.map_cons, hk, pyOrChain, ht, if_true]
          have e2 : resolveFirstTruthy args (k :: rest) d = v := by
            simp only [resolveFirstTruthy, List.map_cons, List.find?, hk,
              Option.elim, ht]
          rw [e1, e2]
        · have htf : pyTruthy v = false := by
            cases hx : pyTruthy v
            · rfl
            · exact absurd hx ht
          have e1 : pyOrChain ((k :: rest).map (fun k => argGet args k)) d =
              pyOrChain (rest.map (fun k => argGet args k)) d := by
            simp only [List.map_cons, hk, pyOrChain, htf]
            simp
          have e2 : resolveFirstTruthy args (k :: rest) d =
              resolveFirstTruthy args rest d := by
            simp only [resolveFirstTruthy, List.map_cons, List.find?, hk,
              Option.elim, htf]
          rw [e1, e2]
          exact ih

/-- Counterexample to **C9** as stated: with `email` present but empty and
`to_email` present and non-empty, the source's wrapper resolves the
recipient to the `to_email` value, while "first present alias in priority
order email, to_email, recipient" resolution yields the empty string — the
wrapper prefers the first *truthy* alias, not the first *present* one. -/
theorem email_alias_counterexample :
    (emailResolve emailArgsCex).email = .str "a@b.c" ∧
    resolveFirstPresent emailArgsCex ["email", "to_email", "recipient"]
      (.str "") = .str "" ∧
    (emailResolve emailArgsCex).email ≠
      resolveFirstPresent emailArgsCex ["email", "to_email", "recipient"]
        (.str "") := by
  refine ⟨rfl, rfl, fun h => ?_⟩
  exact absurd (Value.str.inj (h : Value.str "a@b.c" = Value.str ""))
    (by decide)

/-- **C9** (amended): for every argument mapping, the email wrapper's
resolution takes the first *truthy* (non-falsy) alias value in the fixed
priority orders `email`/`to_email`/`recipient`, `message`/`body`/`content`
and `url`/`link`, falling back to the empty-string default when every
alias is absent or falsy; `subject` is a plain `.get` with default.  The
resolution is a total function of the mapping — it never raises. -/
theorem email_alias_resolution (args : Args) :
    (emailResolve args).email =
      resolveFirstTruthy args ["email", "to_email", "recipient"] (.str "") ∧
    (emailResolve args).message =
      resolveFirstTruthy args ["message", "body", "content"] (.str "") ∧
    (emailResolve args).url =
      resolveFirstTruthy args ["url", "link"] (.str "") ∧
    (emailResolve args).subject = argGetD args "subject" (.str "") :=
  ⟨pyOrChain_eq_firstTruthy args ["email", "to_email", "recipient"]
     (.str ""),
   pyOrChain_eq_firstTruthy args ["message", "body", "content"] (.str ""),
   pyOrChain_eq_firstTruthy args ["url", "link"] (.str ""),
   rfl⟩

end Waka
